import Mathlib

/-!
Shallow embedding of the trustiq repository's core components, together with
theorems settling the specification claims against the code.

Modelled source files:
* `src/blockchain/sui/contracts/sources/trust_registry.move` (module `trustiq::trust_registry`)
* `src/blockchain/sui/contracts/sources/trust_badge.move` (module `trustiq::trust_badge`)
* `src/unnamed/part_016` (module `trustiq::reputation_oracle`)
* `src/unnamed/part_012` (`QueueService`, bull-queue based)
* `src/unnamed/part_019` (`TrustIQInteractor.listenForEvents`)

Move addresses are modelled as `Nat`, `u64` as `Nat`, `vector<u8>` as `List Nat`,
`string::String` as `String`.  An `entry fun` that can `abort` with an error code
is modelled as a function into `Except Nat _` carrying the abort code.  The Move
`while` loops over vectors are modelled as structural recursion over lists in the
same scan order.  Object UIDs are not modelled (they carry no program logic).
-/

/-- A Move transaction context: the sender address and the current epoch,
as read by `tx_context::sender` and `tx_context::epoch`. -/
structure TxContext where
  sender : Nat
  epoch : Nat
deriving Repr, DecidableEq

/-- Linear scan of an address vector for `addr`; embeds the membership loops of
`trust_registry::is_verifier`, `reputation_oracle::is_verifier` and the
duplicate check inside `reputation_oracle::add_verifier` (all three loops are
the identical first-to-last scan). -/
def addr_mem (vs : List Nat) (addr : Nat) : Bool :=
  match vs with
  | [] => false
  | v :: rest => if v == addr then true else addr_mem rest addr

namespace trust_registry

/-- `VerifiedAccount` struct of `trust_registry.move` (lines 29-34). -/
structure VerifiedAccount where
  provider : String
  username : String
  verified_at : Nat
  proof_hash : List Nat
deriving Repr, DecidableEq

/-- `TrustProfile` struct of `trust_registry.move` (lines 17-26); the `id : UID`
field is not modelled.  Note the struct has no version counter. -/
structure TrustProfile where
  owner : Nat
  did : String
  trust_score : Nat
  verified_accounts : List VerifiedAccount
  metadata_cid : String
  created_at : Nat
  updated_at : Nat
deriving Repr, DecidableEq

/-- `TrustRegistry` struct of `trust_registry.move` (lines 9-14). -/
structure TrustRegistry where
  users : List TrustProfile
  verifiers : List Nat
  admin : Nat
deriving Repr, DecidableEq

def ENotAdmin : Nat := 1
def EUserAlreadyExists : Nat := 2
def EUserNotFound : Nat := 3

/-- `init`: fresh registry whose admin is the transaction sender. -/
def init_registry (ctx : TxContext) : TrustRegistry :=
  { users := [], verifiers := [], admin := ctx.sender }

/-- The user-existence scan inside `create_trust_profile` (lines 77-86). -/
def user_exists_loop (users : List TrustProfile) (user : Nat) : Bool :=
  match users with
  | [] => false
  | p :: rest => if p.owner == user then true else user_exists_loop rest user

/-- First-match profile scan, shared by `get_trust_profile` and the searches in
the mutators (all scan `users` front to back and act on the first owner match). -/
def find_profile (users : List TrustProfile) (user : Nat) : Option TrustProfile :=
  match users with
  | [] => none
  | p :: rest => if p.owner == user then some p else find_profile rest user

/-- `create_trust_profile` (lines 67-108): admin-only, rejects an existing
owner, then appends a fresh profile with `trust_score = 50`. -/
def create_trust_profile (registry : TrustRegistry) (user : Nat) (did : String)
    (metadata_cid : String) (ctx : TxContext) : Except Nat TrustRegistry :=
  if ctx.sender == registry.admin then
    if user_exists_loop registry.users user then
      .error EUserAlreadyExists
    else
      .ok { registry with
              users := registry.users ++
                [{ owner := user, did := did, trust_score := 50,
                   verified_accounts := [], metadata_cid := metadata_cid,
                   created_at := ctx.epoch, updated_at := ctx.epoch }] }
  else
    .error ENotAdmin

/-- The update loop of `update_trust_score` (lines 120-138): rewrite the first
profile owned by `user`; `none` when no profile matches (the `abort` path). -/
def update_score_loop (users : List TrustProfile) (user : Nat) (new_score : Nat)
    (metadata_cid : String) (epoch : Nat) : Option (List TrustProfile) :=
  match users with
  | [] => none
  | p :: rest =>
    if p.owner == user then
      some ({ p with trust_score := new_score, metadata_cid := metadata_cid,
                     updated_at := epoch } :: rest)
    else
      match update_score_loop rest user new_score metadata_cid epoch with
      | none => none
      | some rest' => some (p :: rest')

/-- `is_verifier` (lines 183-192). -/
def is_verifier (registry : TrustRegistry) (addr : Nat) : Bool :=
  addr_mem registry.verifiers addr

/-- `update_trust_score` (lines 111-141): requires the sender to be a verifier
(asserted with code `ENotAdmin` in the source), then overwrites
`trust_score`, `metadata_cid` and `updated_at` of the first matching profile;
aborts `EUserNotFound` when no profile matches.  The source performs no bound
check on `new_score`. -/
def update_trust_score (registry : TrustRegistry) (user : Nat) (new_score : Nat)
    (metadata_cid : String) (ctx : TxContext) : Except Nat TrustRegistry :=
  if is_verifier registry ctx.sender then
    match update_score_loop registry.users user new_score metadata_cid ctx.epoch with
    | some users' => .ok { registry with users := users' }
    | none => .error EUserNotFound
  else
    .error ENotAdmin

/-- The append loop of `add_verified_account` (lines 152-167): push a fresh
`VerifiedAccount` onto the first profile owned by `user`. -/
def add_account_loop (users : List TrustProfile) (user : Nat) (provider : String)
    (username : String) (proof_hash : List Nat) (epoch : Nat) :
    Option (List TrustProfile) :=
  match users with
  | [] => none
  | p :: rest =>
    if p.owner == user then
      some ({ p with
                verified_accounts := p.verified_accounts ++
                  [{ provider := provider, username := username,
                     verified_at := epoch, proof_hash := proof_hash }],
                updated_at := epoch } :: rest)
    else
      match add_account_loop rest user provider username proof_hash epoch with
      | none => none
      | some rest' => some (p :: rest')

/-- `add_verified_account` (lines 144-170): the source performs no sender
authorization and no duplicate check; it only aborts `EUserNotFound` when the
subject has no profile. -/
def add_verified_account (registry : TrustRegistry) (user : Nat) (provider : String)
    (username : String) (proof_hash : List Nat) (ctx : TxContext) :
    Except Nat TrustRegistry :=
  match add_account_loop registry.users user provider username proof_hash ctx.epoch with
  | some users' => .ok { registry with users := users' }
  | none => .error EUserNotFound

/-- `register_verifier` (lines 173-180): admin-only unconditional
`vector::push_back` — the source has no already-present check. -/
def register_verifier (registry : TrustRegistry) (verifier : Nat)
    (ctx : TxContext) : Except Nat TrustRegistry :=
  if ctx.sender == registry.admin then
    .ok { registry with verifiers := registry.verifiers ++ [verifier] }
  else
    .error ENotAdmin

/-- `get_trust_profile` (lines 195-205): first owner match, abort
`EUserNotFound` otherwise. -/
def get_trust_profile (registry : TrustRegistry) (user : Nat) :
    Except Nat TrustProfile :=
  match find_profile registry.users user with
  | some p => .ok p
  | none => .error EUserNotFound

end trust_registry

namespace trust_badge

/-- `get_badge_tier` of `trust_badge.move` (lines 113-125). -/
def get_badge_tier (score : Nat) : String :=
  if score ≥ 90 then "Diamond"
  else if score ≥ 80 then "Platinum"
  else if score ≥ 70 then "Gold"
  else if score ≥ 60 then "Silver"
  else "Bronze"

/-- The spec's tier table, written exactly as §3 words it: Bronze <60,
Silver 60-69, Gold 70-79, Platinum 80-89, Diamond ≥90 (for comparison with
`get_badge_tier`). -/
def spec_badge_tier (score : Nat) : String :=
  if score < 60 then "Bronze"
  else if score ≤ 69 then "Silver"
  else if score ≤ 79 then "Gold"
  else if score ≤ 89 then "Platinum"
  else "Diamond"

end trust_badge

namespace reputation_oracle

/-- `ScoreUpdate` struct of `reputation_oracle` (`src/unnamed/part_016`,
lines 21-28). -/
structure ScoreUpdate where
  user : Nat
  score : Nat
  timestamp : Nat
  signature : List Nat
  verifier : Nat
  metadata_cid : String
deriving Repr, DecidableEq

/-- `ReputationOracle` struct (lines 12-18); the `bag` of score updates is
modelled as the list of its values in insertion order. -/
structure ReputationOracle where
  admin : Nat
  verifiers : List Nat
  min_verifications : Nat
  score_updates : List ScoreUpdate
deriving Repr, DecidableEq

def ENotAdmin : Nat := 0
def ENotVerifier : Nat := 1
def EInvalidSignature : Nat := 2

/-- `is_verifier` (lines 193-202). -/
def is_verifier (oracle : ReputationOracle) (addr : Nat) : Bool :=
  addr_mem oracle.verifiers addr

/-- `add_verifier` (lines 86-108): admin-only; returns with the oracle
unchanged when the verifier is already in the vector, otherwise appends. -/
def add_verifier (oracle : ReputationOracle) (verifier : Nat)
    (ctx : TxContext) : Except Nat ReputationOracle :=
  if ctx.sender == oracle.admin then
    if addr_mem oracle.verifiers verifier then
      .ok oracle
    else
      .ok { oracle with verifiers := oracle.verifiers ++ [verifier] }
  else
    .error ENotAdmin

/-- `verify_signature` (lines 204-215).  The source is a placeholder that
ignores every argument: "In production, this would verify the cryptographic
signature.  For now, return true for testing." -/
def verify_signature (_user : Nat) (_score : Nat) (_timestamp : Nat)
    (_signature : List Nat) (_verifier : Nat) : Bool :=
  true

/-- `submit_score_update` (lines 133-167): checks only verifier membership and
the placeholder signature check, then appends the update to the bag.  The
source has no timestamp-staleness check and no score-bound check. -/
def submit_score_update (oracle : ReputationOracle) (user : Nat) (score : Nat)
    (timestamp : Nat) (signature : List Nat) (metadata_cid : String)
    (ctx : TxContext) : Except Nat ReputationOracle :=
  let verifier := ctx.sender
  if is_verifier oracle verifier then
    if verify_signature user score timestamp signature verifier then
      .ok { oracle with
              score_updates := oracle.score_updates ++
                [{ user := user, score := score, timestamp := timestamp,
                   signature := signature, verifier := verifier,
                   metadata_cid := metadata_cid }] }
    else
      .error EInvalidSignature
  else
    .error ENotVerifier

/-- The accumulator loop of `get_consensus_score` (lines 174-183): running
total and count over the updates whose `user` matches. -/
def consensus_loop (updates : List ScoreUpdate) (user : Nat) (total : Nat)
    (count : Nat) : Nat × Nat :=
  match updates with
  | [] => (total, count)
  | u :: rest =>
    if u.user == user then consensus_loop rest user (total + u.score) (count + 1)
    else consensus_loop rest user total count

/-- `get_consensus_score` (lines 170-190): integer mean of the matching
updates and their count, `(50, 0)` when none match. -/
def get_consensus_score (oracle : ReputationOracle) (user : Nat) : Nat × Nat :=
  let tc := consensus_loop oracle.score_updates user 0 0
  if tc.2 > 0 then (tc.1 / tc.2, tc.2) else (50, 0)

end reputation_oracle

/-- One job of the bull `blockchainQueue` of `QueueService`
(`src/unnamed/part_012`): job name plus the `{ walletAddress, score, metadata }`
payload passed by `queueBlockchainUpdate`. -/
structure BlockchainJob where
  name : String
  walletAddress : String
  score : Nat
  metadata : String
deriving Repr, DecidableEq

/-- `QueueService.queueBlockchainUpdate` (`src/unnamed/part_012`, lines
118-120): `this.blockchainQueue.add('update-profile', { walletAddress, score,
metadata })` — an unconditional append of a new job to the queue (bull `add`
with no job id performs no deduplication and takes no lock). -/
def queueBlockchainUpdate (blockchainQueue : List BlockchainJob)
    (walletAddress : String) (score : Nat) (metadata : String) :
    List BlockchainJob :=
  blockchainQueue ++
    [{ name := "update-profile", walletAddress := walletAddress,
       score := score, metadata := metadata }]

/-- Number of queued `update-profile` jobs for one wallet address. -/
def pendingJobsFor (queue : List BlockchainJob) (walletAddress : String) : Nat :=
  (queue.filter (fun j => j.walletAddress == walletAddress)).length

/-- A Sui event as delivered to `TrustIQInteractor.listenForEvents`
(`src/unnamed/part_019`): its type string plus the per-subject idempotence data
(`subject`, `sequence`) named by the spec's event schema. -/
structure SuiEvent where
  type : String
  subject : String
  sequence : Nat
deriving Repr, DecidableEq

/-- Character-list prefix test (JavaScript `String.prototype.startsWith` on the
decomposed string). -/
def charsStartWith (l pat : List Char) : Bool :=
  match l, pat with
  | _, [] => true
  | [], _ :: _ => false
  | c :: cs, p :: ps => if c == p then charsStartWith cs ps else false

/-- Character-list substring test (JavaScript `String.prototype.includes` on
the decomposed string). -/
def charsInclude (pat : List Char) : List Char → Bool
  | [] => charsStartWith [] pat
  | c :: cs => if charsStartWith (c :: cs) pat then true else charsInclude pat cs

/-- JavaScript `s.includes(pat)`. -/
def strIncludes (s pat : String) : Bool :=
  charsInclude pat.toList s.toList

/-- The `onMessage` handler installed by `listenForEvents` (lines 99-103):
`if (event.type.includes('TrustRegistry')) callback(event)` — the state is the
list of events passed to the callback so far, and a matching event is always
forwarded (the source consults no idempotence key). -/
def onMessage (delivered : List SuiEvent) (event : SuiEvent) : List SuiEvent :=
  if strIncludes event.type "TrustRegistry" then delivered ++ [event]
  else delivered

/-- Processing a stream of deliveries through the `onMessage` handler: the list
of callback invocations it produces. -/
def listenDispatch (events : List SuiEvent) : List SuiEvent :=
  events.foldl onMessage []

/-- The registry states reachable from `init` (which sets `admin` to the
transaction sender, here `creator`) through the module's public entry
functions. -/
inductive ReachableRegistry (creator : Nat) : trust_registry.TrustRegistry → Prop where
  | base :
      ReachableRegistry creator { users := [], verifiers := [], admin := creator }
  | step_create (r r' : trust_registry.TrustRegistry) (user : Nat)
      (did metadata_cid : String) (ctx : TxContext) :
      ReachableRegistry creator r →
      trust_registry.create_trust_profile r user did metadata_cid ctx = .ok r' →
      ReachableRegistry creator r'
  | step_update (r r' : trust_registry.TrustRegistry) (user new_score : Nat)
      (metadata_cid : String) (ctx : TxContext) :
      ReachableRegistry creator r →
      trust_registry.update_trust_score r user new_score metadata_cid ctx = .ok r' →
      ReachableRegistry creator r'
  | step_account (r r' : trust_registry.TrustRegistry) (user : Nat)
      (provider username : String) (proof_hash : List Nat) (ctx : TxContext) :
      ReachableRegistry creator r →
      trust_registry.add_verified_account r user provider username proof_hash ctx = .ok r' →
      ReachableRegistry creator r'
  | step_register (r r' : trust_registry.TrustRegistry) (verifier : Nat)
      (ctx : TxContext) :
      ReachableRegistry creator r →
      trust_registry.register_verifier r verifier ctx = .ok r' →
      ReachableRegistry creator r'

section helper_lemmas

open trust_registry reputation_oracle

/-- Scanning `l ++ [v]` for `a` succeeds exactly when the scan of `l` does or
`v` is `a`. -/
theorem addr_mem_append (l : List Nat) (v a : Nat) :
    addr_mem (l ++ [v]) a = (addr_mem l a || (v == a)) := by
  induction l with
  | nil =>
    simp only [List.nil_append, addr_mem, Bool.false_or]
    cases hv : (v == a) <;> simp [hv]
  | cons x xs ih =>
    simp only [List.cons_append, addr_mem]
    by_cases hx : (x == a) = true
    · simp [hx]
    · simp only [Bool.not_eq_true] at hx
      simp [hx, ih]

/-- The score-update loop fails exactly on the inputs where the profile scan
fails. -/
theorem update_score_loop_none (users : List TrustProfile) (user new_score : Nat)
    (metadata_cid : String) (epoch : Nat)
    (h : find_profile users user = none) :
    update_score_loop users user new_score metadata_cid epoch = none := by
  induction users with
  | nil => rfl
  | cons p rest ih =>
    simp only [find_profile] at h
    simp only [update_score_loop]
    by_cases hp : (p.owner == user) = true
    · simp [hp] at h
    · simp only [Bool.not_eq_true] at hp
      simp only [hp] at h ⊢
      simp [ih h]

/-- When the scan finds a profile, the score-update loop succeeds and the
found profile of the result carries the new score, metadata pointer and
epoch. -/
theorem update_score_loop_some_of_find (users : List TrustProfile)
    (user new_score : Nat) (metadata_cid : String) (epoch : Nat)
    (p : TrustProfile) (h : find_profile users user = some p) :
    ∃ users', update_score_loop users user new_score metadata_cid epoch = some users' ∧
      find_profile users' user =
        some { p with trust_score := new_score, metadata_cid := metadata_cid,
                      updated_at := epoch } := by
  induction users with
  | nil => cases h
  | cons q rest ih =>
    simp only [find_profile] at h
    by_cases hq : (q.owner == user) = true
    · simp only [hq, if_true] at h
      injection h with h
      subst h
      refine ⟨{ q with trust_score := new_score, metadata_cid := metadata_cid,
                       updated_at := epoch } :: rest, ?_, ?_⟩
      · simp [update_score_loop, hq]
      · simp [find_profile, hq]
    · simp only [Bool.not_eq_true] at hq
      simp only [hq] at h
      simp only [Bool.false_eq_true, if_false] at h
      obtain ⟨rest', hrest, hfind⟩ := ih h
      refine ⟨q :: rest', ?_, ?_⟩
      · simp [update_score_loop, hq, hrest]
      · simp [find_profile, hq, hfind]

/-- The account-append loop fails exactly on the inputs where the profile scan
fails. -/
theorem add_account_loop_none (users : List TrustProfile) (user : Nat)
    (provider username : String) (proof_hash : List Nat) (epoch : Nat)
    (h : find_profile users user = none) :
    add_account_loop users user provider username proof_hash epoch = none := by
  induction users with
  | nil => rfl
  | cons p rest ih =>
    simp only [find_profile] at h
    simp only [add_account_loop]
    by_cases hp : (p.owner == user) = true
    · simp [hp] at h
    · simp only [Bool.not_eq_true] at hp
      simp only [hp] at h ⊢
      simp [ih h]

/-- When the scan finds a profile, the account-append loop succeeds and the
found profile of the result carries exactly one more verified account,
appended at the end. -/
theorem add_account_loop_some_of_find (users : List TrustProfile) (user : Nat)
    (provider username : String) (proof_hash : List Nat) (epoch : Nat)
    (p : TrustProfile) (h : find_profile users user = some p) :
    ∃ users', add_account_loop users user provider username proof_hash epoch = some users' ∧
      find_profile users' user =
        some { p with
                 verified_accounts := p.verified_accounts ++
                   [{ provider := provider, username := username,
                      verified_at := epoch, proof_hash := proof_hash }],
                 updated_at := epoch } := by
  induction users with
  | nil => cases h
  | cons q rest ih =>
    simp only [find_profile] at h
    by_cases hq : (q.owner == user) = true
    · simp only [hq, if_true] at h
      injection h with h
      subst h
      refine ⟨{ q with
                  verified_accounts := q.verified_accounts ++
                    [{ provider := provider, username := username,
                       verified_at := epoch, proof_hash := proof_hash }],
                  updated_at := epoch } :: rest, ?_, ?_⟩
      · simp [add_account_loop, hq]
      · simp [find_profile, hq]
    · simp only [Bool.not_eq_true] at hq
      simp only [hq] at h
      simp only [Bool.false_eq_true, if_false] at h
      obtain ⟨rest', hrest, hfind⟩ := ih h
      refine ⟨q :: rest', ?_, ?_⟩
      · simp [add_account_loop, hq, hrest]
      · simp [find_profile, hq, hfind]

/-- `create_trust_profile` never changes `admin`. -/
theorem create_trust_profile_admin_eq (r r' : TrustRegistry) (user : Nat)
    (did metadata_cid : String) (ctx : TxContext)
    (h : create_trust_profile r user did metadata_cid ctx = .ok r') :
    r'.admin = r.admin := by
  simp only [create_trust_profile] at h
  split at h
  · split at h
    · cases h
    · cases h
      rfl
  · cases h

/-- `update_trust_score` never changes `admin`. -/
theorem update_trust_score_admin_eq (r r' : TrustRegistry) (user new_score : Nat)
    (metadata_cid : String) (ctx : TxContext)
    (h : update_trust_score r user new_score metadata_cid ctx = .ok r') :
    r'.admin = r.admin := by
  simp only [update_trust_score] at h
  split at h
  · split at h
    · cases h
      rfl
    · cases h
  · cases h

/-- `add_verified_account` never changes `admin`. -/
theorem add_verified_account_admin_eq (r r' : TrustRegistry) (user : Nat)
    (provider username : String) (proof_hash : List Nat) (ctx : TxContext)
    (h : add_verified_account r user provider username proof_hash ctx = .ok r') :
    r'.admin = r.admin := by
  simp only [add_verified_account] at h
  split at h
  · cases h
    rfl
  · cases h

/-- `register_verifier` never changes `admin`. -/
theorem register_verifier_admin_eq (r r' : TrustRegistry) (verifier : Nat)
    (ctx : TxContext)
    (h : register_verifier r verifier ctx = .ok r') :
    r'.admin = r.admin := by
  simp only [register_verifier] at h
  split at h
  · cases h
    rfl
  · cases h

/-- The accumulator loop of `get_consensus_score` computes the running total
and count over the updates whose `user` field matches. -/
theorem consensus_loop_eq (updates : List ScoreUpdate) (user total count : Nat) :
    consensus_loop updates user total count =
      (total + ((updates.filter (fun u => u.user == user)).map ScoreUpdate.score).sum,
       count + (updates.filter (fun u => u.user == user)).length) := by
  induction updates generalizing total count with
  | nil => simp [consensus_loop]
  | cons u rest ih =>
    simp only [consensus_loop, List.filter_cons]
    by_cases hu : (u.user == user) = true
    · simp only [hu, if_true, List.map_cons, List.sum_cons, List.length_cons, ih]
      refine Prod.ext ?_ ?_ <;> simp <;> omega
    · simp only [Bool.not_eq_true] at hu
      simp [hu, ih]

/-- Folding the `onMessage` handler over a delivery stream forwards exactly the
events whose type string contains `"TrustRegistry"`, in order and with
multiplicity. -/
theorem foldl_onMessage_eq (events : List SuiEvent) (acc : List SuiEvent) :
    events.foldl onMessage acc =
      acc ++ events.filter (fun e => strIncludes e.type "TrustRegistry") := by
  induction events generalizing acc with
  | nil => simp
  | cons e rest ih =>
    simp only [List.foldl_cons, List.filter_cons, onMessage]
    by_cases he : strIncludes e.type "TrustRegistry" = true
    · simp [he, ih, List.append_assoc]
    · simp only [Bool.not_eq_true] at he
      simp [he, ih]

end helper_lemmas

section claim_theorems

open trust_registry reputation_oracle

/-- Claim C1, counterexample to the original statement: with a profile for
subject 20 holding score 50 and caller 9 in the verifier set,
`update_trust_score` with `new_score = 101` does not fail with any error — it
succeeds and stores 101 (the source has no score-bound check at all). -/
theorem C1_counterexample :
    update_trust_score ⟨[⟨20, "did:x", 50, [], "m", 0, 0⟩], [9], 1⟩ 20 101 "m2" ⟨9, 4⟩ =
      .ok ⟨[⟨20, "did:x", 101, [], "m2", 0, 4⟩], [9], 1⟩ := rfl

/-- Claim C1 (amended): for every registry state containing a profile for the
subject and every caller in the verifier set, `update_trust_score` succeeds for
every `new_score` whatsoever — 100 is stored as 100, and 101 (or any larger
value) is stored as well; no `InvalidScore` rejection exists in the source. -/
theorem C1_update_score_unvalidated (r : TrustRegistry) (user new_score : Nat)
    (metadata_cid : String) (ctx : TxContext) (p : TrustProfile)
    (hver : is_verifier r ctx.sender = true)
    (hfind : find_profile r.users user = some p) :
    ∃ r', update_trust_score r user new_score metadata_cid ctx = .ok r' ∧
      find_profile r'.users user =
        some { p with trust_score := new_score, metadata_cid := metadata_cid,
                      updated_at := ctx.epoch } := by
  obtain ⟨users', hloop, hfind'⟩ :=
    update_score_loop_some_of_find r.users user new_score metadata_cid ctx.epoch p hfind
  refine ⟨{ r with users := users' }, ?_, hfind'⟩
  simp [update_trust_score, hver, hloop]

/-- Claim C1 witness: the amended theorem applied at `new_score = 101` on a
concrete registry. -/
theorem C1_update_score_unvalidated_witness :
    ∃ r', update_trust_score ⟨[⟨20, "did:x", 50, [], "m", 0, 0⟩], [9], 1⟩ 20 101 "m2" ⟨9, 4⟩ = .ok r' ∧
      find_profile r'.users 20 = some ⟨20, "did:x", 101, [], "m2", 0, 4⟩ :=
  C1_update_score_unvalidated ⟨[⟨20, "did:x", 50, [], "m", 0, 0⟩], [9], 1⟩ 20 101 "m2" ⟨9, 4⟩
    ⟨20, "did:x", 50, [], "m", 0, 0⟩ rfl rfl

/-- Claim C2, counterexample to the original statement: the registry's verifier
set is empty and the pair `("github", "alice")` is already attached to subject
20's own profile, yet `add_verified_account` called by non-verifier 5 succeeds
and appends the duplicate pair — the source checks neither the caller nor
uniqueness. -/
theorem C2_counterexample :
    add_verified_account
        ⟨[⟨20, "did:x", 50, [⟨"github", "alice", 1, [1]⟩], "m", 0, 0⟩], [], 1⟩
        20 "github" "alice" [2] ⟨5, 7⟩ =
      .ok ⟨[⟨20, "did:x", 50,
             [⟨"github", "alice", 1, [1]⟩, ⟨"github", "alice", 7, [2]⟩], "m", 0, 7⟩], [], 1⟩ := rfl

/-- Claim C2 (amended): `add_verified_account` succeeds exactly when a profile
for the subject exists — it performs no verifier-authorization check and no
duplicate-account check — failing with `EUserNotFound` otherwise; a successful
call appends exactly one `VerifiedAccount` at the end of the subject's
profile's account list. -/
theorem C2_add_account_characterization :
    (∀ (r : TrustRegistry) (user : Nat) (provider username : String)
        (proof_hash : List Nat) (ctx : TxContext),
        find_profile r.users user = none →
        add_verified_account r user provider username proof_hash ctx =
          .error EUserNotFound) ∧
    (∀ (r : TrustRegistry) (user : Nat) (provider username : String)
        (proof_hash : List Nat) (ctx : TxContext) (p : TrustProfile),
        find_profile r.users user = some p →
        ∃ r', add_verified_account r user provider username proof_hash ctx = .ok r' ∧
          find_profile r'.users user =
            some { p with
                     verified_accounts := p.verified_accounts ++
                       [{ provider := provider, username := username,
                          verified_at := ctx.epoch, proof_hash := proof_hash }],
                     updated_at := ctx.epoch }) := by
  constructor
  · intro r user provider username proof_hash ctx h
    simp [add_verified_account,
      add_account_loop_none r.users user provider username proof_hash ctx.epoch h]
  · intro r user provider username proof_hash ctx p h
    obtain ⟨users', hloop, hfind'⟩ :=
      add_account_loop_some_of_find r.users user provider username proof_hash ctx.epoch p h
    refine ⟨{ r with users := users' }, ?_, hfind'⟩
    simp [add_verified_account, hloop]

/-- Claim C2 witness: the amended theorem applied on a concrete registry whose
verifier set is empty and whose subject already holds the same
`(provider, username)` pair. -/
theorem C2_add_account_characterization_witness :
    ∃ r', add_verified_account
        ⟨[⟨20, "did:x", 50, [⟨"github", "alice", 1, [1]⟩], "m", 0, 0⟩], [], 1⟩
        20 "github" "alice" [2] ⟨5, 7⟩ = .ok r' ∧
      find_profile r'.users 20 =
        some ⟨20, "did:x", 50,
              [⟨"github", "alice", 1, [1]⟩, ⟨"github", "alice", 7, [2]⟩], "m", 0, 7⟩ :=
  C2_add_account_characterization.2
    ⟨[⟨20, "did:x", 50, [⟨"github", "alice", 1, [1]⟩], "m", 0, 0⟩], [], 1⟩
    20 "github" "alice" [2] ⟨5, 7⟩ ⟨20, "did:x", 50, [⟨"github", "alice", 1, [1]⟩], "m", 0, 0⟩ rfl

/-- Claim C3: evaluation of `submit_score_update` at the failing input — the
registered verifier 9 submits score 200 with timestamp 0 while the current
epoch is 1000000 (maximal skew) and an empty signature, and the observation is
nonetheless stored: the source's `verify_signature` is a constant-`true`
placeholder and no timestamp-staleness check exists, so neither
`StaleTimestamp` nor `EInvalidSignature` can ever fire. -/
theorem C3_submit_stores_stale_unsigned :
    submit_score_update ⟨1, [9], 1, []⟩ 20 200 0 [] "m" ⟨9, 1000000⟩ =
      .ok ⟨1, [9], 1, [⟨20, 200, 0, [], 9, "m"⟩]⟩ := rfl

/-- Claim C4: `get_consensus_score` returns the integer arithmetic mean of the
scores of all stored observations for the subject together with their count,
and `(50, 0)` when no observations for the subject exist; in particular with
stored observations `[40, 60, 80]` it returns `(60, 3)`. -/
theorem C4_consensus_score :
    (∀ (oracle : ReputationOracle) (user : Nat),
        get_consensus_score oracle user =
          (if (oracle.score_updates.filter (fun u => u.user == user)).length = 0
           then (50, 0)
           else (((oracle.score_updates.filter (fun u => u.user == user)).map
                    ScoreUpdate.score).sum /
                   (oracle.score_updates.filter (fun u => u.user == user)).length,
                 (oracle.score_updates.filter (fun u => u.user == user)).length))) ∧
    get_consensus_score
      ⟨1, [9], 1, [⟨20, 40, 1, [], 9, "a"⟩, ⟨20, 60, 2, [], 9, "b"⟩,
                   ⟨20, 80, 3, [], 9, "c"⟩]⟩ 20 = (60, 3) ∧
    get_consensus_score ⟨1, [9], 1, []⟩ 20 = (50, 0) := by
  refine ⟨?_, by decide, by decide⟩
  intro oracle user
  simp only [get_consensus_score, consensus_loop_eq, Nat.zero_add]
  by_cases hl : (oracle.score_updates.filter (fun u => u.user == user)).length = 0
  · simp [hl]
  · simp [hl, Nat.pos_of_ne_zero hl]

/-- Claim C5: evaluation of the code at the failing input — a profile is
created (7 fields, no version counter anywhere in `TrustProfile`) and two
accepted `update_trust_score` calls rewrite `trust_score`, `metadata_cid` and
`updated_at` only; the final score equals the most recent accepted
`new_score`, but no counter advances from 1 to 1 + N because the struct has no
such field. -/
theorem C5_profile_has_no_version_counter :
    create_trust_profile ⟨[], [9], 1⟩ 20 "did:x" "m0" ⟨1, 5⟩ =
      .ok ⟨[⟨20, "did:x", 50, [], "m0", 5, 5⟩], [9], 1⟩ ∧
    update_trust_score ⟨[⟨20, "did:x", 50, [], "m0", 5, 5⟩], [9], 1⟩ 20 60 "m1" ⟨9, 6⟩ =
      .ok ⟨[⟨20, "did:x", 60, [], "m1", 5, 6⟩], [9], 1⟩ ∧
    update_trust_score ⟨[⟨20, "did:x", 60, [], "m1", 5, 6⟩], [9], 1⟩ 20 80 "m2" ⟨9, 7⟩ =
      .ok ⟨[⟨20, "did:x", 80, [], "m2", 5, 7⟩], [9], 1⟩ :=
  ⟨rfl, rfl, rfl⟩

/-- Claim C6, counterexample to the original statement: verifier 5 is already
registered, yet the admin's repeated `register_verifier` call is not a no-op —
it appends a duplicate, so the verifier vector after calling twice (`[5, 5]`)
differs from after calling once (`[5]`). -/
theorem C6_counterexample :
    register_verifier ⟨[], [5], 1⟩ 5 ⟨1, 0⟩ = .ok ⟨[], [5, 5], 1⟩ ∧
    ([5, 5] : List Nat) ≠ [5] :=
  ⟨rfl, by decide⟩

/-- Claim C6 (amended): `register_verifier` is admin-only, but it appends
unconditionally: a repeated registration duplicates the vector entry rather
than being a no-op, although the `is_verifier` membership predicate is left
pointwise unchanged; the oracle's `add_verifier` is admin-only (a non-admin
caller is rejected with `ENotAdmin`) and genuinely idempotent — a call with an
already-registered verifier returns the oracle unchanged, so calling it twice
with the same verifier yields the same state as calling it once. -/
theorem C6_register_verifier_amended :
    (∀ (r : TrustRegistry) (v : Nat) (ctx : TxContext), ¬ ctx.sender = r.admin →
        register_verifier r v ctx = .error trust_registry.ENotAdmin) ∧
    (∀ (r : TrustRegistry) (v : Nat) (ctx : TxContext), ctx.sender = r.admin →
        ∃ r', register_verifier r v ctx = .ok r' ∧
          r'.verifiers = r.verifiers ++ [v] ∧
          (is_verifier r v = true → ∀ a, is_verifier r' a = is_verifier r a)) ∧
    (∀ (o : ReputationOracle) (v : Nat) (ctx : TxContext), ¬ ctx.sender = o.admin →
        add_verifier o v ctx = .error reputation_oracle.ENotAdmin) ∧
    (∀ (o : ReputationOracle) (v : Nat) (ctx : TxContext), ctx.sender = o.admin →
        reputation_oracle.is_verifier o v = true →
        add_verifier o v ctx = .ok o) ∧
    (∀ (o : ReputationOracle) (v : Nat) (ctx : TxContext), ctx.sender = o.admin →
        ∃ o₁, add_verifier o v ctx = .ok o₁ ∧ add_verifier o₁ v ctx = .ok o₁) := by
  refine ⟨?_, ?_, ?_, ?_, ?_⟩
  · intro r v ctx h
    simp [register_verifier, beq_iff_eq, h]
  · intro r v ctx h
    refine ⟨{ r with verifiers := r.verifiers ++ [v] }, ?_, rfl, ?_⟩
    · simp [register_verifier, beq_iff_eq, h]
    · intro hmem a
      simp only [trust_registry.is_verifier] at hmem ⊢
      rw [addr_mem_append]
      cases hva : (v == a)
      · simp
      · have hv : v = a := eq_of_beq hva
        subst hv
        simp [hmem]
  · intro o v ctx h
    simp [add_verifier, beq_iff_eq, h]
  · intro o v ctx h hmem
    simp only [reputation_oracle.is_verifier] at hmem
    simp [add_verifier, beq_iff_eq, h, hmem]
  · intro o v ctx h
    by_cases hmem : addr_mem o.verifiers v = true
    · exact ⟨o, by simp [add_verifier, beq_iff_eq, h, hmem],
             by simp [add_verifier, beq_iff_eq, h, hmem]⟩
    · simp only [Bool.not_eq_true] at hmem
      refine ⟨{ o with verifiers := o.verifiers ++ [v] }, ?_, ?_⟩
      · simp [add_verifier, beq_iff_eq, h, hmem]
      · simp [add_verifier, beq_iff_eq, h, addr_mem_append]

/-- Claim C6 witness: the amended theorem applied on concrete states — a
non-admin registration is rejected by both modules, the oracle's
`add_verifier` on an already-registered verifier returns the oracle unchanged,
and calling it twice equals calling it once. -/
theorem C6_register_verifier_amended_witness :
    register_verifier ⟨[], [5], 1⟩ 5 ⟨2, 0⟩ = .error trust_registry.ENotAdmin ∧
    add_verifier ⟨1, [5], 1, []⟩ 5 ⟨2, 0⟩ = .error reputation_oracle.ENotAdmin ∧
    add_verifier ⟨1, [5], 1, []⟩ 5 ⟨1, 0⟩ = .ok ⟨1, [5], 1, []⟩ ∧
    (∃ o₁, add_verifier ⟨1, [], 1, []⟩ 5 ⟨1, 0⟩ = .ok o₁ ∧
      add_verifier o₁ 5 ⟨1, 0⟩ = .ok o₁) :=
  ⟨C6_register_verifier_amended.1 ⟨[], [5], 1⟩ 5 ⟨2, 0⟩ (by decide),
   C6_register_verifier_amended.2.2.1 ⟨1, [5], 1, []⟩ 5 ⟨2, 0⟩ (by decide),
   C6_register_verifier_amended.2.2.2.1 ⟨1, [5], 1, []⟩ 5 ⟨1, 0⟩ rfl rfl,
   C6_register_verifier_amended.2.2.2.2 ⟨1, [], 1, []⟩ 5 ⟨1, 0⟩ rfl⟩

/-- Claim C7: the badge-tier derivation agrees everywhere with the spec's
threshold table (Bronze below 60, Silver 60-69, Gold 70-79, Platinum 80-89,
Diamond from 90 up), and the six boundary scores map as the spec lists them. -/
theorem C7_badge_tier :
    (∀ score : Nat, trust_badge.get_badge_tier score = trust_badge.spec_badge_tier score) ∧
    trust_badge.get_badge_tier 59 = "Bronze" ∧
    trust_badge.get_badge_tier 60 = "Silver" ∧
    trust_badge.get_badge_tier 69 = "Silver" ∧
    trust_badge.get_badge_tier 70 = "Gold" ∧
    trust_badge.get_badge_tier 89 = "Platinum" ∧
    trust_badge.get_badge_tier 90 = "Diamond" := by
  refine ⟨?_, rfl, rfl, rfl, rfl, rfl, rfl⟩
  intro score
  simp only [trust_badge.get_badge_tier, trust_badge.spec_badge_tier]
  split_ifs <;> first | rfl | omega

/-- Claim C8, counterexample to the original statement: with an
`update-profile` job for wallet `"0xS"` already queued, a further
`queueBlockchainUpdate` for the same wallet is not a no-op — afterwards two
jobs for `"0xS"` are pending. -/
theorem C8_counterexample :
    pendingJobsFor
        (queueBlockchainUpdate [⟨"update-profile", "0xS", 70, "m1"⟩] "0xS" 80 "m2")
        "0xS" = 2 ∧
    queueBlockchainUpdate [⟨"update-profile", "0xS", 70, "m1"⟩] "0xS" 80 "m2" ≠
      [⟨"update-profile", "0xS", 70, "m1"⟩] := by
  refine ⟨by decide, by decide⟩

/-- Claim C8 (amended): `queueBlockchainUpdate` unconditionally appends a new
`update-profile` job — every call increases the number of pending jobs for the
wallet by one and is never a no-op; the source takes no per-subject lock and
performs no deduplication. -/
theorem C8_queue_not_single_flight :
    (∀ (q : List BlockchainJob) (w : String) (s : Nat) (m : String),
        pendingJobsFor (queueBlockchainUpdate q w s m) w = pendingJobsFor q w + 1) ∧
    (∀ (q : List BlockchainJob) (w : String) (s : Nat) (m : String),
        queueBlockchainUpdate q w s m ≠ q) := by
  constructor
  · intro q w s m
    simp [pendingJobsFor, queueBlockchainUpdate, List.filter_append]
  · intro q w s m h
    have hlen := congrArg List.length h
    simp only [queueBlockchainUpdate, List.length_append, List.length_cons,
      List.length_nil] at hlen
    omega

/-- Claim C9, counterexample to the original statement: delivering the same
`TrustRegistry` event (identical sequence 7) twice through the
`listenForEvents` handler invokes the callback twice — the duplicate is not
detected and skipped, so the dispatch result differs from delivering the event
once. -/
theorem C9_counterexample :
    listenDispatch [⟨"0x2::TrustRegistry::TrustScoreUpdated", "0xS", 7⟩,
                    ⟨"0x2::TrustRegistry::TrustScoreUpdated", "0xS", 7⟩] ≠
      listenDispatch [⟨"0x2::TrustRegistry::TrustScoreUpdated", "0xS", 7⟩] := by
  decide

/-- Claim C9 (amended): the `listenForEvents` handler forwards every event
whose type string contains `"TrustRegistry"` to the callback unconditionally —
the dispatch output is exactly the filtered stream with multiplicity, so a
duplicate delivery of the same event (same sequence) is handled a second time;
no idempotence key is consulted. -/
theorem C9_dispatch_forwards_duplicates :
    (∀ events : List SuiEvent,
        listenDispatch events =
          events.filter (fun e => strIncludes e.type "TrustRegistry")) ∧
    listenDispatch [⟨"0x2::TrustRegistry::TrustScoreUpdated", "0xS", 7⟩,
                    ⟨"0x2::TrustRegistry::TrustScoreUpdated", "0xS", 7⟩] =
      [⟨"0x2::TrustRegistry::TrustScoreUpdated", "0xS", 7⟩,
       ⟨"0x2::TrustRegistry::TrustScoreUpdated", "0xS", 7⟩] := by
  constructor
  · intro events
    simpa using foldl_onMessage_eq events []
  · decide

/-- Claim C10: in every reachable `TrustRegistry` state the `admin` field
equals the address that created the registry via `init` — none of the public
entry functions modifies `admin`, and the reachability relation enumerates
every mutator the module exports (no admin-transfer operation exists). -/
theorem C10_admin_immutable (creator : Nat) (r : TrustRegistry)
    (h : ReachableRegistry creator r) : r.admin = creator := by
  induction h with
  | base => rfl
  | step_create r1 r2 user did metadata_cid ctx _ hok ih =>
    rw [create_trust_profile_admin_eq r1 r2 user did metadata_cid ctx hok]
    exact ih
  | step_update r1 r2 user new_score metadata_cid ctx _ hok ih =>
    rw [update_trust_score_admin_eq r1 r2 user new_score metadata_cid ctx hok]
    exact ih
  | step_account r1 r2 user provider username proof_hash ctx _ hok ih =>
    rw [add_verified_account_admin_eq r1 r2 user provider username proof_hash ctx hok]
    exact ih
  | step_register r1 r2 verifier ctx _ hok ih =>
    rw [register_verifier_admin_eq r1 r2 verifier ctx hok]
    exact ih

/-- Claim C10 witness: the theorem applied to the concrete state reached by
`init` (creator 1) followed by one `register_verifier` call. -/
theorem C10_admin_immutable_witness :
    ({ users := [], verifiers := [2], admin := 1 } : TrustRegistry).admin = 1 :=
  C10_admin_immutable 1 ⟨[], [2], 1⟩
    (ReachableRegistry.step_register ⟨[], [], 1⟩ ⟨[], [2], 1⟩ 2 ⟨1, 0⟩
      ReachableRegistry.base rfl)

end claim_theorems
